import Mathlib

/-!
Verification of the DaiSpan monitoring / load-testing harness scripts.

Shallow embedding of the pure decision logic of the Python scripts
`scripts/test_memory_fixes.py`, `scripts/performance_test.py`,
`scripts/long_term_test.py` and `scripts/quick_check.py`.

Modelling conventions:
* Python numbers are idealised as exact rationals (`ℚ`); Python integer
  division-floor is `Nat` division.
* A Python function that can raise an exception is embedded returning
  `Option` (`none` = the exception propagates).
* A `requests` call is a value of a small outcome type (status code plus
  parsed body, or a transport failure), so every network-dependent function
  becomes a pure function of the responses that it observes.
-/

namespace DaiSpan

/-! ### StatisticsEngine: `MemoryFixTester._calculate_trend` and
`_calculate_stability` (scripts/test_memory_fixes.py, lines 203-241) -/

/-- `sum(values) / len(values)`, the arithmetic mean as the scripts compute it
(`ℚ` division is total; every call site guards the empty list). -/
def listMean (l : List ℚ) : ℚ := l.sum / l.length

/-- Population variance as computed at lines 228-229 of
`test_memory_fixes.py`: `sum((x - avg) ** 2 for x in values) / len(values)`. -/
def listVariance (l : List ℚ) : ℚ :=
  (l.map (fun x => (x - listMean l) ^ 2)).sum / l.length

/-- `MemoryFixTester._calculate_trend` (test_memory_fixes.py lines 203-221):
halves are `values[:n//2]` and `values[n//2:]`, `diff` the difference of their
means, classified against the constant threshold 1000. -/
def _calculate_trend (values : List ℚ) : String :=
  if values.length < 2 then "insufficient_data"
  else
    let first_half := values.take (values.length / 2)
    let second_half := values.drop (values.length / 2)
    let diff := listMean second_half - listMean first_half
    if |diff| < 1000 then "stable"
    else if 0 < diff then "improving"
    else "declining"

/-- Whether `std_dev / a < c` where `std_dev = Real.sqrt v`, encoded exactly
over `ℚ` (for the source's positive constants `c`): when `a < 0` the quotient
is nonpositive, hence below `c`; when `0 < a` the comparison squares to
`v < (c*a)^2`.  `ratioLtB v a c` is proved equivalent to
`Real.sqrt v / a < c` in `ratioLtB_iff` below. -/
def ratioLtB (v a c : ℚ) : Bool :=
  if a < 0 then true else decide (v < (c * a) ^ 2)

/-- `MemoryFixTester._calculate_stability` (test_memory_fixes.py lines
223-241).  `stability_ratio = std_dev / avg` is computed with no guard in the
source: when `avg = 0` Python raises `ZeroDivisionError`, embedded here as
`none`.  The bucket comparisons `stability_ratio < 0.05 / 0.1 / 0.2` are
encoded by `ratioLtB` (equivalent to the `Real.sqrt` form, see
`ratioLtB_iff`). -/
def _calculate_stability (values : List ℚ) : Option String :=
  if values.length < 3 then some "insufficient_data"
  else if listMean values = 0 then none
  else if ratioLtB (listVariance values) (listMean values) (1/20) then
    some "excellent"
  else if ratioLtB (listVariance values) (listMean values) (1/10) then
    some "good"
  else if ratioLtB (listVariance values) (listMean values) (1/5) then
    some "moderate"
  else some "poor"

/-- The boolean encoding `ratioLtB` agrees with the real-valued comparison
`Real.sqrt v / a < c` that the source computes via `variance ** 0.5 / avg`. -/
theorem ratioLtB_iff (v a c : ℚ) (ha : a ≠ 0) (hc : 0 < c) :
    ratioLtB v a c = true ↔ Real.sqrt v / (a : ℝ) < (c : ℝ) := by
  unfold ratioLtB
  by_cases hneg : a < 0
  · simp only [if_pos hneg, true_iff]
    have h1 : Real.sqrt v / (a : ℝ) ≤ 0 := by
      apply div_nonpos_of_nonneg_of_nonpos (Real.sqrt_nonneg _)
      exact_mod_cast hneg.le
    have h2 : (0 : ℝ) < c := by exact_mod_cast hc
    linarith
  · have hpos : 0 < a := lt_of_le_of_ne (not_lt.mp hneg) (Ne.symm ha)
    have hposR : (0 : ℝ) < (a : ℝ) := by exact_mod_cast hpos
    simp only [if_neg hneg, decide_eq_true_eq]
    rw [div_lt_iff₀ hposR,
      Real.sqrt_lt' (by positivity : (0 : ℝ) < (c : ℝ) * (a : ℝ))]
    constructor
    · intro h
      calc (v : ℝ) < (((c * a : ℚ)) : ℝ) ^ 2 := by exact_mod_cast h
        _ = ((c : ℝ) * (a : ℝ)) ^ 2 := by push_cast; ring
    · intro h
      have : (v : ℝ) < (((c * a : ℚ)) : ℝ) ^ 2 := by
        calc (v : ℝ) < ((c : ℝ) * (a : ℝ)) ^ 2 := h
          _ = (((c * a : ℚ)) : ℝ) ^ 2 := by push_cast; ring
      exact_mod_cast this

/-- Variance is a mean of squares, hence nonnegative. -/
theorem listVariance_nonneg (l : List ℚ) : 0 ≤ listVariance l := by
  unfold listVariance
  apply div_nonneg
  · apply List.sum_nonneg
    intro x hx
    obtain ⟨y, _, rfl⟩ := List.mem_map.mp hx
    positivity
  · positivity

/-- C1: `_calculate_trend` splits a series of `n ≥ 2` points into a first half
of `n / 2` elements and a second half of the remaining `n - n / 2`, compares
the means (`delta` = second minus first) and returns "stable" when
`|delta| < 1000`, "improving" when `delta > 0` (with `|delta| ≥ 1000`) and
"declining" otherwise; fewer than 2 points give "insufficient_data".  The
series `[120000, 119500, 119000, 119200, 119300]` classifies as "stable" and
`[100000, 100000, 140000, 140000]` as "improving". -/
theorem trend_classification (values : List ℚ) :
    (values.length < 2 → _calculate_trend values = "insufficient_data") ∧
    (2 ≤ values.length →
      (values.take (values.length / 2)).length = values.length / 2 ∧
      (values.drop (values.length / 2)).length = values.length - values.length / 2 ∧
      (|listMean (values.drop (values.length / 2)) -
          listMean (values.take (values.length / 2))| < 1000 →
        _calculate_trend values = "stable") ∧
      (1000 ≤ |listMean (values.drop (values.length / 2)) -
          listMean (values.take (values.length / 2))| →
        0 < listMean (values.drop (values.length / 2)) -
          listMean (values.take (values.length / 2)) →
        _calculate_trend values = "improving") ∧
      (1000 ≤ |listMean (values.drop (values.length / 2)) -
          listMean (values.take (values.length / 2))| →
        listMean (values.drop (values.length / 2)) -
          listMean (values.take (values.length / 2)) ≤ 0 →
        _calculate_trend values = "declining")) ∧
    _calculate_trend [120000, 119500, 119000, 119200, 119300] = "stable" ∧
    _calculate_trend [100000, 100000, 140000, 140000] = "improving" := by
  refine ⟨fun h => ?_, fun h => ?_, ?_, ?_⟩
  · simp only [_calculate_trend, if_pos h]
  · have hlen : ¬ values.length < 2 := Nat.not_lt.mpr h
    refine ⟨?_, List.length_drop _ _, fun h1 => ?_, fun h1 h2 => ?_, fun h1 h2 => ?_⟩
    · rw [List.length_take]
      exact Nat.min_eq_left (Nat.div_le_self _ _)
    · simp only [_calculate_trend, if_neg hlen, if_pos h1]
    · simp only [_calculate_trend, if_neg hlen, if_neg (not_lt.mpr h1), if_pos h2]
    · simp only [_calculate_trend, if_neg hlen, if_neg (not_lt.mpr h1),
        if_neg (not_lt.mpr h2)]
  · norm_num [_calculate_trend, listMean, abs]
  · norm_num [_calculate_trend, listMean, abs]

/-- Witness for C1: the "stable" example with every hypothesis discharged at
the concrete series. -/
theorem trend_classification_witness :
    _calculate_trend [120000, 119500, 119000, 119200, 119300] = "stable" :=
  ((trend_classification [120000, 119500, 119000, 119200, 119300]).2.1
    (by norm_num)).2.2.1 (by norm_num [listMean, abs])

/-- Counterexample for C3: on the series `[0, 0, 0]` (three points, mean
exactly zero) the source computes `stability_ratio = std_dev / avg` with no
guard and raises `ZeroDivisionError` (embedded as `none`); it does not return
"insufficient_data" as the claim states. -/
theorem stability_zero_mean_counterexample :
    _calculate_stability [0, 0, 0] = none ∧
    _calculate_stability [0, 0, 0] ≠ some "insufficient_data" := by
  constructor
  · norm_num [_calculate_stability, listMean]
  · norm_num [_calculate_stability, listMean]
    exact fun h => Option.noConfusion h

/-- C3 (amended): `_calculate_stability` is not guarded against a zero mean.
With fewer than 3 points it returns "insufficient_data"; with at least 3
points and mean exactly zero the unguarded division `std_dev / avg` raises
`ZeroDivisionError` (embedded as `none`); with nonzero mean (including
near-zero) it always returns a classification without raising. -/
theorem stability_totality (values : List ℚ) :
    (values.length < 3 → _calculate_stability values = some "insufficient_data") ∧
    (3 ≤ values.length → listMean values = 0 → _calculate_stability values = none) ∧
    (3 ≤ values.length → listMean values ≠ 0 →
      ∃ s, _calculate_stability values = some s) := by
  refine ⟨fun h => ?_, fun h hm => ?_, fun h hm => ?_⟩
  · simp only [_calculate_stability, if_pos h]
  · simp only [_calculate_stability, if_neg (Nat.not_lt.mpr h), if_pos hm]
  · simp only [_calculate_stability, if_neg (Nat.not_lt.mpr h), if_neg hm]
    split_ifs <;> exact ⟨_, rfl⟩

/-- Witness for C3 (amended): the zero-mean series raises, a short series and
a nonzero-mean series do not. -/
theorem stability_totality_witness :
    _calculate_stability [0, 0, 0] = none ∧
    _calculate_stability [5] = some "insufficient_data" ∧
    (∃ s, _calculate_stability [1, 2, 3] = some s) :=
  ⟨(stability_totality [0, 0, 0]).2.1 (by norm_num) (by norm_num [listMean]),
   (stability_totality [5]).1 (by norm_num),
   (stability_totality [1, 2, 3]).2.2 (by norm_num) (by norm_num [listMean])⟩

/-- C5: for at least 3 points and a nonzero mean, `_calculate_stability`
buckets the coefficient of variation `std_dev / mean` (population standard
deviation over population mean) at 0.05 / 0.1 / 0.2 into "excellent" /
"good" / "moderate" / "poor"; fewer than 3 points give "insufficient_data".
`[100000, 101000, 99500]` classifies as "excellent" and
`[100000, 150000, 50000]` as "poor". -/
theorem stability_classification (values : List ℚ) :
    (values.length < 3 → _calculate_stability values = some "insufficient_data") ∧
    (3 ≤ values.length → listMean values ≠ 0 →
      (Real.sqrt (listVariance values) / (listMean values : ℝ) < 1/20 →
        _calculate_stability values = some "excellent") ∧
      (¬ Real.sqrt (listVariance values) / (listMean values : ℝ) < 1/20 →
        Real.sqrt (listVariance values) / (listMean values : ℝ) < 1/10 →
        _calculate_stability values = some "good") ∧
      (¬ Real.sqrt (listVariance values) / (listMean values : ℝ) < 1/10 →
        Real.sqrt (listVariance values) / (listMean values : ℝ) < 1/5 →
        _calculate_stability values = some "moderate") ∧
      (¬ Real.sqrt (listVariance values) / (listMean values : ℝ) < 1/5 →
        _calculate_stability values = some "poor")) ∧
    _calculate_stability [100000, 101000, 99500] = some "excellent" ∧
    _calculate_stability [100000, 150000, 50000] = some "poor" := by
  refine ⟨fun h => ?_, fun h hm => ?_, ?_, ?_⟩
  · simp only [_calculate_stability, if_pos h]
  · have hlen := Nat.not_lt.mpr h
    have c20 : ((1/20 : ℚ) : ℝ) = 1/20 := by norm_num
    have c10 : ((1/10 : ℚ) : ℝ) = 1/10 := by norm_num
    have c5 : ((1/5 : ℚ) : ℝ) = 1/5 := by norm_num
    have i20 := ratioLtB_iff (listVariance values) (listMean values) (1/20) hm (by norm_num)
    have i10 := ratioLtB_iff (listVariance values) (listMean values) (1/10) hm (by norm_num)
    have i5 := ratioLtB_iff (listVariance values) (listMean values) (1/5) hm (by norm_num)
    rw [c20] at i20
    rw [c10] at i10
    rw [c5] at i5
    refine ⟨fun h1 => ?_, fun h1 h2 => ?_, fun h1 h2 => ?_, fun h1 => ?_⟩
    · simp only [_calculate_stability, if_neg hlen, if_neg hm, if_pos (i20.mpr h1)]
    · have n20 : ¬ ratioLtB (listVariance values) (listMean values) (1/20) = true := by
        rw [i20]; exact h1
      simp only [_calculate_stability, if_neg hlen, if_neg hm, if_neg n20,
        if_pos (i10.mpr h2)]
    · have n20 : ¬ ratioLtB (listVariance values) (listMean values) (1/20) = true := by
        rw [i20]; intro hl; exact h1 (hl.trans (by norm_num))
      have n10 : ¬ ratioLtB (listVariance values) (listMean values) (1/10) = true := by
        rw [i10]; exact h1
      simp only [_calculate_stability, if_neg hlen, if_neg hm, if_neg n20, if_neg n10,
        if_pos (i5.mpr h2)]
    · have n20 : ¬ ratioLtB (listVariance values) (listMean values) (1/20) = true := by
        rw [i20]; intro hl; exact h1 (hl.trans (by norm_num))
      have n10 : ¬ ratioLtB (listVariance values) (listMean values) (1/10) = true := by
        rw [i10]; intro hl; exact h1 (hl.trans (by norm_num))
      have n5 : ¬ ratioLtB (listVariance values) (listMean values) (1/5) = true := by
        rw [i5]; exact h1
      simp only [_calculate_stability, if_neg hlen, if_neg hm, if_neg n20, if_neg n10,
        if_neg n5]
  · norm_num [_calculate_stability, listMean, listVariance, ratioLtB]
  · norm_num [_calculate_stability, listMean, listVariance, ratioLtB]

/-- Witness for C5: the "excellent" example, obtained through the bucket
implication with the real-valued ratio bound discharged concretely. -/
theorem stability_classification_witness :
    _calculate_stability [100000, 101000, 99500] = some "excellent" := by
  have hv : listVariance [100000, 101000, 99500] = 10500000/27 := by
    norm_num [listVariance, listMean]
  have hm : listMean [100000, 101000, 99500] = 300500/3 := by
    norm_num [listMean]
  have hr : Real.sqrt (listVariance [100000, 101000, 99500]) /
      ((listMean [100000, 101000, 99500] : ℚ) : ℝ) < 1/20 := by
    rw [hv, hm]
    rw [div_lt_iff₀ (by norm_num : (0:ℝ) < ((300500/3 : ℚ) : ℝ))]
    apply (Real.sqrt_lt' (by norm_num : (0:ℝ) < 1/20 * ((300500/3 : ℚ) : ℝ))).2
    push_cast
    norm_num
  exact ((stability_classification [100000, 101000, 99500]).2.1 (by norm_num)
    (by norm_num [listMean])).1 hr

/-! ### `DaiSpanPerformanceTester` (scripts/performance_test.py) -/

/-- A minimal JSON value: exactly the shapes the scripts consume
(objects with `.get` and default, strings, numbers). -/
inductive Json where
  | obj : List (String × Json) → Json
  | str : String → Json
  | num : ℚ → Json

/-- Python `data.get(key, default)` on a decoded payload. -/
def Json.get (d : Json) (k : String) (dft : Json) : Json :=
  match d with
  | .obj fs => match fs.lookup k with
    | some v => v
    | none => dft
  | _ => dft

/-- Outcome of `DaiSpanPerformanceTester._get` (performance_test.py lines
29-40): the wrapper returns the response (status code plus decoded body) or
`none` when `requests.RequestException` was caught (transport failure). -/
def HttpResponse := Nat × Json

/-- `DaiSpanPerformanceTester.get_memory_stats` (performance_test.py lines
59-77) as a function of the two `_get` outcomes it can observe: the primary
probe of `/api/memory/detailed` and the fallback probe of
`/api/memory/stats` (the fallback is only consulted when the primary answers
404).  A 200 primary yields the full payload; a 404 primary with a 200
fallback yields the reduced dict tagged `"source": "stats"`; every other
combination yields `None`. -/
def get_memory_stats (primary fallback : Option HttpResponse) : Option Json :=
  match primary with
  | none => none
  | some (code, body) =>
    if code == 404 then
      match fallback with
      | some (fcode, fbody) =>
        if fcode == 200 then
          some (.obj [("heap", fbody.get "heap" (.obj [])),
                      ("memoryPressure", fbody.get "memoryPressure" (.obj [])),
                      ("source", .str "stats")])
        else none
      | none => none
    else if code == 200 then some body
    else none

/-- One record appended to `local_results` inside `stress_test.worker`
(performance_test.py lines 151-181).  The failure records carry an `error`
string and no `response_time`; the per-request timestamps are not modelled
(no property consumes them). -/
structure StressRec where
  success : Bool
  response_time : Option ℚ
  error : Option String
deriving DecidableEq

/-- The loop of `stress_test.worker` (performance_test.py lines 151-181).
`resp i` is what `self._get("/api/memory/stats")` observes on the `i`-th
request (`.failed` = the wrapper returned `None`), `rt i` the measured
latency and `n` the number of iterations the shared deadline still admits.
On a transport failure the worker records `'request failed'` and `break`s;
on a 404 it records `'api disabled'`, sets `self.minimal_build = True` (the
returned flag) and `break`s; otherwise it records `success = (status == 200)`
and continues. -/
inductive HttpResult where
  | ok : Nat → HttpResult
  | failed : HttpResult
deriving DecidableEq

def workerAux (resp : Nat → HttpResult) (rt : Nat → ℚ) :
    Nat → Nat → List StressRec × Bool
  | _, 0 => ([], false)
  | i, n + 1 =>
    match resp i with
    | .failed => ([⟨false, none, some "request failed"⟩], false)
    | .ok code =>
      if code == 404 then ([⟨false, none, some "api disabled"⟩], true)
      else
        let rest := workerAux resp rt (i + 1) n
        (⟨code == 200, some (rt i), none⟩ :: rest.1, rest.2)

/-- `min` of a response-time list as Python's `min` (call sites guarantee a
nonempty list; the empty case is an unreachable default). -/
def listMin : List ℚ → ℚ
  | [] => 0
  | x :: xs => xs.foldl min x

/-- `max` of a response-time list as Python's `max`. -/
def listMax : List ℚ → ℚ
  | [] => 0
  | x :: xs => xs.foldl max x

/-- `statistics.median`: sort, take the middle element for odd length and the
mean of the two middle elements for even length (call sites guarantee a
nonempty list). -/
def listMedian (l : List ℚ) : ℚ :=
  let s := l.insertionSort (· ≤ ·)
  if l.length % 2 = 1 then s.getD (l.length / 2) 0
  else (s.getD (l.length / 2 - 1) 0 + s.getD (l.length / 2) 0) / 2

/-- `[r['response_time'] for r in successful_requests]`: a missing key would
raise `KeyError` (embedded as `none`; worker-produced success records always
carry the key). -/
def getResponseTimes : List StressRec → Option (List ℚ)
  | [] => some []
  | r :: rs =>
    match r.response_time, getResponseTimes rs with
    | some t, some ts => some (t :: ts)
    | _, _ => none

/-- The aggregate dict returned by `stress_test` (performance_test.py lines
194-227).  Latency fields are `none` in the degenerate branch, whose dict
carries no such keys. -/
structure StressSummary where
  total_requests : Nat
  successful_requests : Nat
  failed_requests : Nat
  success_rate : ℚ
  avg_response_time : Option ℚ
  min_response_time : Option ℚ
  max_response_time : Option ℚ
  median_response_time : Option ℚ
  requests_per_second : Option ℚ
  error : Option String
deriving DecidableEq

/-- Result aggregation at the end of `stress_test` (performance_test.py lines
199-227): partition `all_results` on `r.get('success', False)`; with at
least one success compute the latency statistics over the successful subset
(`none` overall models the `ZeroDivisionError` of
`len(successful) / duration` when `duration = 0`); with no successes return
the degenerate dict with `success_rate = 0` and an explicit `error` field
("api disabled" when some record carries that error). -/
def stressAggregate (all : List StressRec) (duration : ℚ) : Option StressSummary :=
  let successful := all.filter (fun r => r.success)
  let failed := all.filter (fun r => !r.success)
  if successful.isEmpty then
    some { total_requests := all.length
           successful_requests := 0
           failed_requests := failed.length
           success_rate := 0
           avg_response_time := none
           min_response_time := none
           max_response_time := none
           median_response_time := none
           requests_per_second := none
           error := some (if all.any (fun r => r.error == some "api disabled")
             then "api disabled" else "所有請求都失敗了") }
  else
    match getResponseTimes successful with
    | none => none
    | some rts =>
      if duration = 0 then none
      else
        some { total_requests := all.length
               successful_requests := successful.length
               failed_requests := failed.length
               success_rate := (successful.length : ℚ) / all.length * 100
               avg_response_time := some (rts.sum / rts.length)
               min_response_time := some (listMin rts)
               max_response_time := some (listMax rts)
               median_response_time := some (listMedian rts)
               requests_per_second := some ((successful.length : ℚ) / duration)
               error := none }

/-- C6: `get_memory_stats` degrades rather than vanishes: a 404 primary with
a 200 fallback yields a non-`None` result built from the fallback payload and
tagged `"source": "stats"` (minimal mode); a 200 primary yields the full
payload; a transport failure yields `None` (capability treated as
unavailable). -/
theorem memory_stats_capability (pbody fbody : Json) (fb : Option HttpResponse) :
    get_memory_stats (some (404, pbody)) (some (200, fbody)) =
      some (Json.obj [("heap", fbody.get "heap" (.obj [])),
                      ("memoryPressure", fbody.get "memoryPressure" (.obj [])),
                      ("source", .str "stats")]) ∧
    (Json.obj [("heap", fbody.get "heap" (.obj [])),
               ("memoryPressure", fbody.get "memoryPressure" (.obj [])),
               ("source", .str "stats")]).get "source" (.str "") = .str "stats" ∧
    get_memory_stats (some (404, pbody)) (some (200, fbody)) ≠ none ∧
    get_memory_stats (some (200, pbody)) fb = some pbody ∧
    get_memory_stats none fb = none := by
  refine ⟨rfl, rfl, ?_, rfl, rfl⟩
  simp [get_memory_stats]

/-- Witness for C6 at a concrete fallback payload. -/
theorem memory_stats_capability_witness :
    get_memory_stats (some (404, Json.obj []))
      (some (200, Json.obj [("heap", Json.num 5)])) =
      some (Json.obj [("heap", Json.num 5),
                      ("memoryPressure", Json.obj []),
                      ("source", Json.str "stats")]) :=
  (memory_stats_capability (Json.obj []) (Json.obj [("heap", Json.num 5)]) none).1

/-- Counterexample for C4: with the deadline still admitting 5 iterations and
every request failing at transport level (`_get` returns `None`), the worker
records a single `'request failed'` outcome and `break`s out of its loop —
it does not continue until the deadline as the claim states. -/
theorem worker_transport_counterexample :
    (workerAux (fun _ => .failed) (fun _ => 0) 0 5).1 =
      [⟨false, none, some "request failed"⟩] ∧
    (workerAux (fun _ => .failed) (fun _ => 0) 0 5).1.length = 1 ∧
    (1 : Nat) ≠ 5 := by
  refine ⟨rfl, rfl, by norm_num⟩

/-- C4 (amended): a worker that observes protocol errors other than 404 —
non-200/non-404 HTTP statuses — records each attempt and continues its loop
until the shared deadline; but a transport failure (`_get` returning `None`)
records one `'request failed'` outcome and terminates the loop immediately,
as does a 404 (which additionally sets the `minimal_build` flag). -/
theorem worker_error_handling (resp : Nat → HttpResult) (rt : Nat → ℚ) (i n : Nat) :
    ((∀ j, ∃ c, resp j = .ok c ∧ c ≠ 404) →
      (workerAux resp rt i n).1.length = n) ∧
    (resp i = .failed →
      workerAux resp rt i (n + 1) = ([⟨false, none, some "request failed"⟩], false)) ∧
    (resp i = .ok 404 →
      workerAux resp rt i (n + 1) = ([⟨false, none, some "api disabled"⟩], true)) := by
  refine ⟨fun h => ?_, fun hf => ?_, fun h404 => ?_⟩
  · induction n generalizing i with
    | zero => rfl
    | succ n ih =>
      obtain ⟨c, hc, hne⟩ := h i
      have hb : ¬ ((c == 404) = true) := by simpa using hne
      simp only [workerAux, hc, if_neg hb, List.length_cons]
      rw [ih (i + 1)]
  · simp only [workerAux, hf]
  · simp only [workerAux, h404]
    rfl

/-- Witness for C4 (amended): a worker seeing only HTTP 500 runs all 3
admitted iterations; first-request transport failure and first-request 404
each produce exactly one final record. -/
theorem worker_error_handling_witness :
    (workerAux (fun _ => .ok 500) (fun _ => 0) 0 3).1.length = 3 ∧
    workerAux (fun _ => .failed) (fun _ => 0) 2 4 =
      ([⟨false, none, some "request failed"⟩], false) ∧
    workerAux (fun _ => .ok 404) (fun _ => 0) 0 1 =
      ([⟨false, none, some "api disabled"⟩], true) :=
  ⟨(worker_error_handling (fun _ => .ok 500) (fun _ => 0) 0 3).1
      (fun _ => ⟨500, rfl, by norm_num⟩),
   (worker_error_handling (fun _ => .failed) (fun _ => 0) 2 3).2.1 rfl,
   (worker_error_handling (fun _ => .ok 404) (fun _ => 0) 0 0).2.2 rfl⟩

/-- C7: `stress_test` aggregation partitions the results into successes and
failures (their counts sum to the total); with at least one success the
success rate is `successes / total * 100` and all latency statistics (mean,
min, max, median) and `requests_per_second = successes / duration` are
computed over the successful subset only; with no successes (including an
empty result set) it returns `success_rate = 0` with an explicit error field
and performs no division at all. -/
theorem stress_aggregation (all : List StressRec) (duration : ℚ) :
    (all.filter (fun r => r.success)).length +
      (all.filter (fun r => !r.success)).length = all.length ∧
    ((all.filter (fun r => r.success)).isEmpty = true →
      stressAggregate all duration = some
        { total_requests := all.length
          successful_requests := 0
          failed_requests := (all.filter (fun r => !r.success)).length
          success_rate := 0
          avg_response_time := none
          min_response_time := none
          max_response_time := none
          median_response_time := none
          requests_per_second := none
          error := some (if all.any (fun r => r.error == some "api disabled")
            then "api disabled" else "所有請求都失敗了") }) ∧
    (∀ rts, (all.filter (fun r => r.success)).isEmpty = false →
      getResponseTimes (all.filter (fun r => r.success)) = some rts →
      duration ≠ 0 →
      stressAggregate all duration = some
        { total_requests := all.length
          successful_requests := (all.filter (fun r => r.success)).length
          failed_requests := (all.filter (fun r => !r.success)).length
          success_rate := ((all.filter (fun r => r.success)).length : ℚ) /
            all.length * 100
          avg_response_time := some (rts.sum / rts.length)
          min_response_time := some (listMin rts)
          max_response_time := some (listMax rts)
          median_response_time := some (listMedian rts)
          requests_per_second :=
            some (((all.filter (fun r => r.success)).length : ℚ) / duration)
          error := none }) := by
  refine ⟨(all.length_eq_length_filter_add (fun r => r.success)).symm, fun h => ?_,
    fun rts h hrts hd => ?_⟩
  · simp only [stressAggregate]
    rw [if_pos h]
  · simp only [stressAggregate]
    rw [if_neg (by rw [h]; exact Bool.false_ne_true), hrts]
    exact if_neg hd

/-- Witness for C7: one success (latency 2) and one failure over a
10-second window. -/
theorem stress_aggregation_witness :
    stressAggregate [⟨true, some 2, none⟩, ⟨false, none, some "request failed"⟩] 10 =
      some { total_requests := 2
             successful_requests := 1
             failed_requests := 1
             success_rate := 50
             avg_response_time := some 2
             min_response_time := some 2
             max_response_time := some 2
             median_response_time := some 2
             requests_per_second := some (1/10)
             error := none } := by
  have h := (stress_aggregation
    [⟨true, some 2, none⟩, ⟨false, none, some "request failed"⟩] 10).2.2
    [2] rfl rfl (by norm_num)
  rw [h]
  norm_num [listMin, listMax, listMedian, List.insertionSort, List.orderedInsert]

/-! ### `DaiSpanMonitor` (scripts/long_term_test.py) -/

/-- The inter-tick wait decision of `run_continuous_test`
(long_term_test.py lines 276-284): after a cycle the loop computes
`remaining = end_time - time.time()`, `break`s when `remaining ≤ 0`
(embedded as `none` — no sleep, the loop exits) and otherwise sleeps
`min(interval, remaining)`.  The cycle's own processing time is not
consulted. -/
def scheduler_sleep (interval remaining : ℚ) : Option ℚ :=
  if remaining ≤ 0 then none else some (min interval remaining)

/-- Modelled from the spec: the sleep C2 asserts the loop performs,
`max(0, interval - elapsed)` where `elapsed` is the tick's processing time.
Stated only to compare against `scheduler_sleep`, which is what the source
computes. -/
def claimed_sleep (interval elapsed : ℚ) : ℚ := max 0 (interval - elapsed)

/-- The loop of `run_continuous_test` (long_term_test.py lines 265-284) under
an explicit time model: `cycleDur k` is the processing time of the `k`-th
collection cycle, `t` the time elapsed since start, `count` the cycles run so
far.  `while time.time() < end_time`: run a cycle, then `break` or sleep per
`scheduler_sleep`.  Returns the number of cycles executed; `fuel` bounds the
recursion. -/
def monitorRun (cycleDur : Nat → ℚ) (total interval : ℚ) :
    Nat → ℚ → Nat → Nat
  | 0, _, count => count
  | fuel + 1, t, count =>
    if t < total then
      match scheduler_sleep interval (total - (t + cycleDur count)) with
      | none => count + 1
      | some s => monitorRun cycleDur total interval fuel (t + cycleDur count + s) (count + 1)
    else count

/-- Outcome of one `run_continuous_test` invocation.  The source performs no
configuration validation and wraps the whole loop in
`try/except/finally: generate_report()`, so every invocation — whatever the
arguments — returns a report; the `configError` alternative exists only so
the spec's claimed fatal `ConfigurationError` is statable, and is never
produced. -/
inductive RunOutcome where
  | report : Nat → RunOutcome
  | configError : RunOutcome
deriving DecidableEq

/-- `DaiSpanMonitor.run_continuous_test` (long_term_test.py lines 258-293):
converts hours/minutes to seconds and runs the loop; always ends in the
`finally:` block producing a report. -/
def run_continuous_test (cycleDur : Nat → ℚ)
    (duration_hours interval_minutes : ℚ) (fuel : Nat) : RunOutcome :=
  .report (monitorRun cycleDur (duration_hours * 3600) (interval_minutes * 60) fuel 0 0)

/-- The `summary` dict of `DaiSpanMonitor.results` as read and written by
`generate_report` (long_term_test.py lines 212-256).  `avg_response_time`
and `success_rate` are the derived keys (absent before the first call,
hence `Option`); error entries are kept abstract.  The wall-clock fields
`end_time` / `total_duration_seconds` the method also writes are timestamps
outside the aggregate statistics and are not modelled. -/
structure MonitorSummary where
  total_checks : Nat
  successful_checks : Nat
  failed_checks : Nat
  response_times : List ℚ
  errors : List String
  avg_response_time : Option ℚ
  success_rate : Option ℚ
deriving DecidableEq

/-- The statistics pass of `DaiSpanMonitor.generate_report` (long_term_test.py
lines 220-228): sets `avg_response_time = sum / len` when `response_times` is
nonempty, and always sets `success_rate` (`successful / total * 100` when
`total_checks > 0`, else `0`).  File output and logging are effects on
external sinks, outside the summary state. -/
def generate_report (s : MonitorSummary) : MonitorSummary :=
  let s1 := if s.response_times.isEmpty then s
    else { s with
           avg_response_time := some (s.response_times.sum / s.response_times.length) }
  { s1 with
    success_rate :=
      some (if 0 < s.total_checks
            then (s.successful_checks : ℚ) / s.total_checks * 100 else 0) }

/-- Counterexample for C2: take a tick that starts at time 0 with deadline
100 and processing time 3 (so `remaining = 97`).  The source sleeps the full
interval `min(10, 97) = 10`; the claimed `max(0, interval - elapsed)` is 7.
The tick's processing time never shortens the sleep. -/
theorem scheduler_sleep_counterexample :
    scheduler_sleep 10 (100 - 3) = some 10 ∧
    claimed_sleep 10 3 = 7 ∧
    scheduler_sleep 10 (100 - 3) ≠ some (claimed_sleep 10 3) := by
  refine ⟨?_, ?_, ?_⟩
  · norm_num [scheduler_sleep]
  · norm_num [claimed_sleep]
  · norm_num [scheduler_sleep, claimed_sleep]

/-- C2 (amended): after a cycle the loop computes
`remaining = end_time - now`; it breaks without sleeping when
`remaining ≤ 0` (the tick is never skipped mid-cycle) and otherwise sleeps
`min(interval, remaining)` — the full interval whenever enough time remains,
regardless of how long the tick took, so cadence stretches to
`interval + elapsed` rather than being preserved; the sleep is never
negative. -/
theorem scheduler_sleep_behavior (interval remaining : ℚ) :
    (remaining ≤ 0 → scheduler_sleep interval remaining = none) ∧
    (0 < remaining →
      scheduler_sleep interval remaining = some (min interval remaining) ∧
      (0 ≤ interval → 0 ≤ min interval remaining) ∧
      (interval ≤ remaining → min interval remaining = interval)) := by
  refine ⟨fun h => ?_, fun h => ⟨?_, fun hi => ?_, fun hr => ?_⟩⟩
  · simp only [scheduler_sleep, if_pos h]
  · simp only [scheduler_sleep, if_neg (not_le.mpr h)]
  · exact le_min hi h.le
  · exact min_eq_left hr

/-- Witness for C2 (amended): interval 10 with 97 seconds remaining sleeps
the full 10; with the deadline passed the loop exits. -/
theorem scheduler_sleep_behavior_witness :
    scheduler_sleep 10 97 = some (min 10 97) ∧ scheduler_sleep 10 (-1) = none :=
  ⟨((scheduler_sleep_behavior 10 97).2 (by norm_num)).1,
   (scheduler_sleep_behavior 10 (-1)).1 (by norm_num)⟩

/-- The dict `stress_test` returns for an empty result set: `success_rate`
zero, all-failed error message, no latency keys. -/
def emptyRunSummary : StressSummary :=
  { total_requests := 0
    successful_requests := 0
    failed_requests := 0
    success_rate := 0
    avg_response_time := none
    min_response_time := none
    max_response_time := none
    median_response_time := none
    requests_per_second := none
    error := some "所有請求都失敗了" }

/-- Counterexample for C8: invoked with duration 0 hours (a non-positive
duration), `run_continuous_test` does not raise a configuration error — it
runs zero collection cycles and still completes normally with a report; and
`stress_test`'s aggregation over the empty result set of such a degenerate
run returns the `success_rate = 0` dict rather than raising. -/
theorem no_config_validation_counterexample :
    run_continuous_test (fun _ => 1) 0 5 100 = .report 0 ∧
    run_continuous_test (fun _ => 1) 0 5 100 ≠ .configError ∧
    stressAggregate [] 0 = some emptyRunSummary := by
  refine ⟨?_, ?_, rfl⟩
  · simp [run_continuous_test, monitorRun]
  · simp [run_continuous_test]

/-- C8 (amended): no configuration validation exists.  For every non-positive
duration, `run_continuous_test` silently completes a degenerate run: zero
collection cycles, normal termination, a report produced (never a
configuration error); likewise `stress_test` over the empty outcome set of
such a run returns the degenerate `success_rate = 0` aggregate with an error
field instead of raising. -/
theorem no_config_validation (cycleDur : Nat → ℚ)
    (duration_hours interval_minutes : ℚ) (fuel : Nat) (duration : ℚ) :
    (duration_hours ≤ 0 →
      run_continuous_test cycleDur duration_hours interval_minutes fuel = .report 0) ∧
    (stressAggregate [] duration).isSome = true ∧
    (∀ s, stressAggregate [] duration = some s →
      s.success_rate = 0 ∧ s.error ≠ none) := by
  refine ⟨fun h => ?_, ?_, fun s hs => ?_⟩
  · have htot : ¬ (0 : ℚ) < duration_hours * 3600 := by
      intro hlt
      nlinarith
    unfold run_continuous_test
    cases fuel with
    | zero => rfl
    | succ n =>
      simp only [monitorRun, if_neg htot]
  · rfl
  · have hse : s = emptyRunSummary := by
      have h0 : stressAggregate [] duration = some emptyRunSummary := rfl
      rw [h0] at hs
      exact (Option.some_injective _ hs).symm
    rw [hse]
    exact ⟨rfl, by simp [emptyRunSummary]⟩

/-- Witness for C8 (amended): duration 0 hours yields a zero-cycle report. -/
theorem no_config_validation_witness :
    run_continuous_test (fun _ => 1) 0 5 100 = .report 0 ∧
    (stressAggregate [] 7).isSome = true :=
  ⟨(no_config_validation (fun _ => 1) 0 5 100 7).1 le_rfl,
   (no_config_validation (fun _ => 1) 0 5 100 7).2.1⟩

/-- C9: `generate_report` is idempotent on the summary it reads: a second
call on the unchanged run state produces identical derived statistics
(`success_rate`, `avg_response_time`), and the call never mutates the fields
it reads from (the counters, the response-time series, the error list). -/
theorem report_idempotent (s : MonitorSummary) :
    generate_report (generate_report s) = generate_report s ∧
    (generate_report s).total_checks = s.total_checks ∧
    (generate_report s).successful_checks = s.successful_checks ∧
    (generate_report s).failed_checks = s.failed_checks ∧
    (generate_report s).response_times = s.response_times ∧
    (generate_report s).errors = s.errors := by
  cases s with
  | mk tc sc fc rts errs avg rate =>
    by_cases h : rts.isEmpty <;>
      simp [generate_report, h]

/-- Witness for C9 at a concrete summary state. -/
theorem report_idempotent_witness :
    generate_report (generate_report ⟨3, 2, 1, [1, 2], ["e"], none, none⟩) =
      generate_report ⟨3, 2, 1, [1, 2], ["e"], none, none⟩ :=
  (report_idempotent ⟨3, 2, 1, [1, 2], ["e"], none, none⟩).1

/-! ### `check_daispan_status` (scripts/quick_check.py) -/

/-- What one `requests.get` of a page can observe in `check_daispan_status`
(quick_check.py lines 87-115): a status code, or one of the caught
exceptions. -/
inductive FetchResult where
  | status : Nat → FetchResult
  | timedOut : FetchResult
  | connError : FetchResult
  | otherError : FetchResult
deriving DecidableEq

/-- The boolean appended to `results` for one mandatory page: `True` exactly
on HTTP 200, `False` on any other status or any caught exception. -/
def pageOk (r : FetchResult) : Bool :=
  match r with
  | .status c => c == 200
  | _ => false

/-- The three mandatory pages of `check_daispan_status`
(quick_check.py lines 72-76). -/
def mandatory_pages : List String := ["/", "/wifi", "/homekit"]

/-- The optional pages (quick_check.py lines 77-79); probed only for
logging, never appended to `results`. -/
def optional_pages : List String := ["/ota"]

/-- What the `/api/memory/detailed` probe of `check_memory_profile` can
observe: a status code together with whether the decoded body carries a
truthy `profile` field, a JSON decode failure of a 200 body, or a caught
transport exception. -/
inductive ProfileProbe where
  | status : Nat → Bool → ProfileProbe
  | badJson : ProfileProbe
  | timedOut : ProfileProbe
  | connError : ProfileProbe
  | otherError : ProfileProbe
deriving DecidableEq

/-- `check_memory_profile` (quick_check.py lines 15-62): 404 counts as
passing ("normal in production builds"), any other non-200 status fails,
a 200 passes exactly when the body has a truthy `profile` field; every
caught exception path falls through to `return False`. -/
def check_memory_profile (r : ProfileProbe) : Bool :=
  match r with
  | .status code profile =>
    if code == 404 then true
    else if code != 200 then false
    else profile
  | _ => false

/-- `check_daispan_status` (quick_check.py lines 64-153) as a function of the
page outcomes and the memory-profile probe: one boolean per mandatory page,
`success_rate = successes / total * 100` over those three alone (the optional
probes are only printed), returning `True` iff `success_rate >= 80 and
profile_ok`, else `False` through either remaining branch. -/
def check_daispan_status (device : String → FetchResult) (probe : ProfileProbe) : Bool :=
  let results := mandatory_pages.map (fun p => pageOk (device p))
  let success_count := results.count true
  let success_rate : ℚ := (success_count : ℚ) / results.length * 100
  let profile_ok := check_memory_profile probe
  if 80 ≤ success_rate ∧ profile_ok then true
  else if 50 ≤ success_rate then false
  else false

/-- With three mandatory pages the 80% gate is passed exactly when all three
answered 200; the returned boolean is that gate conjoined with the
memory-profile check. -/
theorem check_daispan_status_true_iff (device : String → FetchResult)
    (probe : ProfileProbe) :
    check_daispan_status device probe = true ↔
      (∀ p ∈ mandatory_pages, pageOk (device p) = true) ∧
      check_memory_profile probe = true := by
  unfold check_daispan_status
  cases h1 : pageOk (device "/") <;> cases h2 : pageOk (device "/wifi") <;>
    cases h3 : pageOk (device "/homekit") <;> cases hp : check_memory_profile probe <;>
    simp [mandatory_pages, h1, h2, h3, hp, List.count_cons] <;> norm_num

/-- C10: `check_daispan_status` returns `True` exactly when all three
mandatory pages ("/", "/wifi", "/homekit" — at least 80% of three, hence all
three with integer counts) answer HTTP 200 and the memory-profile check
passes (where a 404 on `/api/memory/detailed` passes); the optional pages
never enter the denominator or affect the result, and a 2-of-3 mandatory
rate (66.7%, in [50%, 80%)) or a failed profile check yields `False`. -/
theorem status_check_policy (device : String → FetchResult) (probe : ProfileProbe) :
    (check_daispan_status device probe = true ↔
      (∀ p ∈ mandatory_pages, pageOk (device p) = true) ∧
      check_memory_profile probe = true) ∧
    (∀ d2 : String → FetchResult, (∀ p ∈ mandatory_pages, d2 p = device p) →
      check_daispan_status d2 probe = check_daispan_status device probe) ∧
    (∀ b, check_memory_profile (.status 404 b) = true) ∧
    (pageOk (device "/") = true → pageOk (device "/wifi") = true →
      pageOk (device "/homekit") = false →
      check_daispan_status device probe = false) ∧
    (check_memory_profile probe = false →
      check_daispan_status device probe = false) := by
  refine ⟨check_daispan_status_true_iff device probe, fun d2 hag => ?_, fun b => rfl,
    fun h1 h2 h3 => ?_, fun hp => ?_⟩
  · unfold check_daispan_status
    have hmap : mandatory_pages.map (fun p => pageOk (d2 p)) =
        mandatory_pages.map (fun p => pageOk (device p)) :=
      List.map_congr_left (fun p hmem => by rw [hag p hmem])
    rw [hmap]
  · cases hres : check_daispan_status device probe with
    | false => rfl
    | true =>
      exact absurd (((check_daispan_status_true_iff device probe).mp hres).1 "/homekit"
        (by simp [mandatory_pages])) (by simp [h3])
  · cases hres : check_daispan_status device probe with
    | false => rfl
    | true =>
      exact absurd ((check_daispan_status_true_iff device probe).mp hres).2
        (by simp [hp])

/-- Witness for C10: all pages up with a 404 profile probe passes; the same
device with "/homekit" answering 500 (two of three pages, 66.7%) fails. -/
theorem status_check_policy_witness :
    check_daispan_status (fun _ => .status 200) (.status 404 false) = true ∧
    check_daispan_status
      (fun p => if p == "/homekit" then .status 500 else .status 200)
      (.status 404 false) = false :=
  ⟨(status_check_policy (fun _ => .status 200) (.status 404 false)).1.mpr
      ⟨fun _ _ => rfl, rfl⟩,
   (status_check_policy
      (fun p => if p == "/homekit" then .status 500 else .status 200)
      (.status 404 false)).2.2.2.1 rfl rfl rfl⟩

end DaiSpan
